import Mathlib

/-!
Verification of the Telegram railway-log bot dispatcher (`main.py`).

Texts are modelled as `List Char` (the sequence of Unicode code points of a
Python `str`).  Python string operations used by the handler are embedded
faithfully: `pat in s` as `pyContains`, `s.replace(pat, r)` (single
left-to-right pass over all non-overlapping occurrences) as `pyReplace`,
`"\n".join(xs)` as `joinWith`.  The per-message handler `handle_message`
is embedded as a pure function from the incoming message and an environment
(the model response and the success/failure of the external append and send
calls) to the list of externally observable effects, in order.
-/

namespace KursBot

abbrev Str := List Char

/-- Code points of a string literal. -/
def str (x : String) : Str := x.data

/-- Python substring membership `pat in s`: some position of `s` starts with `pat`. -/
def pyContains (pat : Str) : Str → Bool
  | [] => pat.isPrefixOf []
  | c :: rest => pat.isPrefixOf (c :: rest) || pyContains pat rest

/-- Number of positions of `s` at which `pat` occurs (overlapping occurrences all counted). -/
def countOccs (pat : Str) : Str → Nat
  | [] => if pat.isPrefixOf ([] : Str) then 1 else 0
  | c :: rest => (if pat.isPrefixOf (c :: rest) then 1 else 0) + countOccs pat rest

/-- Fuel-indexed core of Python `str.replace`: scan left to right, and at each
position either consume a full non-overlapping match of `pat` (emitting `repl`)
or copy one character.  The fuel only serves structural termination; `s.length`
fuel is always enough. -/
def replaceFuel (pat repl : Str) : Nat → Str → Str
  | 0, rest => rest
  | _ + 1, [] => []
  | fuel + 1, c :: rest =>
    if pat.isPrefixOf (c :: rest) && decide (pat ≠ []) then
      repl ++ replaceFuel pat repl fuel (List.drop (pat.length - 1) rest)
    else
      c :: replaceFuel pat repl fuel rest

/-- Python `s.replace(pat, repl)` for non-empty `pat`. -/
def pyReplace (pat repl s : Str) : Str := replaceFuel pat repl s.length s

/-- Python `sep.join(xs)`. -/
def joinWith (sep : Str) : List Str → Str
  | [] => []
  | [x] => x
  | x :: y :: rest => x ++ sep ++ joinWith sep (y :: rest)

/-! Literals from `main.py`. -/

def tagD : Str := str "[SOURCE: DOUBT SOLVER]"

def tagO : Str := str "[SOURCE: OEM]"

def tagA : Str := str "[SOURCE: ASSET_DATA]"

def tagR : Str := str "[SOURCE: RULES]"

def linkD : Str := str "🚦 [DOUBT SOLVER](https://notebooklm.google.com/notebook/7dddc77d-86e6-4e76-9dce-bf30b93688bf)"

def linkO : Str := str "📡 [OEM](https://notebooklm.google.com/notebook/822125b0-47f0-4703-8a1c-ec44abf5eb17)"

def linkA : Str := str "📊 [Asset Data](https://notebooklm.google.com/notebook/e064cf10-8a99-4712-a4e7-ff809415ec8e)"

def linkR : Str := str "📖 [General Rules](https://notebooklm.google.com/notebook/27c3dfab-5300-4ce1-8cd9-fe1fb9bbb259)"

def sepNN : Str := str "\n\n"

def nlSep : Str := str "\n"

/-- The tip line appended after the link block (leading newline included, as in
`final_text += "\n⚠️ *Tip:* ..."`). -/
def tipLine : Str := str "\n⚠️ *Tip:* If asked to login, tap \x27Open in Chrome\x27."

/-- The tip line without its leading newline. -/
def tipBody : Str := str "⚠️ *Tip:* If asked to login, tap \x27Open in Chrome\x27."

def errHead : Str := str "Error: "

def mdMode : Str := str "Markdown"

def extractName : Str := str "extract_transaction_data"

def ctxA : Str := str "CONTEXT [Original Msg]: \x27"

def ctxB : Str := str "\x27\nACTION [User Reply]: \x27"

def ctxC : Str := str "\x27\nINSTRUCTION: User is updating a request. Extract Item from Context, Status from Action."

def confHead : Str := str "✅ **Update Logged**\nStatus: "

def confItemSep : Str := str " | Item: "

def confQtySep : Str := str " | Qty: "

/-! Context composer (`prompt_input`, main.py lines 138-148). The Python guard
is `reply_to_message and reply_to_message.text`, so an absent reply or an
absent/empty reply text selects the plain branch. -/

def composePrompt (user_text : Str) (reply_text : Option Str) : Str :=
  match reply_text with
  | some original_text =>
    if original_text ≠ [] then
      ctxA ++ original_text ++ ctxB ++ user_text ++ ctxC
    else
      user_text
  | none => user_text

/-! Scenario B tag annotation (main.py lines 185-208): four sequential checks,
each on the current text, each removing all occurrences of its marker via
`str.replace` and queueing one link line. -/

/-- One `if tag in final_text: links_to_add.append(link); final_text = final_text.replace(tag, "")` block. -/
def step (tag link : Str) (st : Str × List Str) : Str × List Str :=
  if pyContains tag st.1 then (pyReplace tag [] st.1, st.2 ++ [link]) else st

def st0 (t : Str) : Str × List Str := (t, [])

def st1 (t : Str) : Str × List Str := step tagD linkD (st0 t)

def st2 (t : Str) : Str × List Str := step tagO linkO (st1 t)

def st3 (t : Str) : Str × List Str := step tagA linkA (st2 t)

/-- Final text and queued link lines after all four tag checks. -/
def annotate (t : Str) : Str × List Str := step tagR linkR (st3 t)

/-- The text as it stands when tag number `i` (in checking order
DOUBT SOLVER, OEM, ASSET_DATA, RULES) is checked. -/
def checkText (t : Str) : Fin 4 → Str
  | 0 => (st0 t).1
  | 1 => (st1 t).1
  | 2 => (st2 t).1
  | 3 => (st3 t).1

def tagOf : Fin 4 → Str
  | 0 => tagD
  | 1 => tagO
  | 2 => tagA
  | 3 => tagR

def linkOf : Fin 4 → Str
  | 0 => linkD
  | 1 => linkO
  | 2 => linkA
  | 3 => linkR

def fullLinks : List Str := [linkD, linkO, linkA, linkR]

/-- The delivered Scenario B text (main.py lines 205-210): if any link was
queued, append a blank line, the joined link block and the tip line. -/
def finalText (t : Str) : Str :=
  let txt := (annotate t).1
  let links := (annotate t).2
  if links ≠ [] then txt ++ sepNN ++ joinWith nlSep links ++ tipLine else txt

/-! The structured call and the LOG branch (main.py lines 158-181). -/

/-- Argument mapping of the structured call; any key may be absent. -/
structure CallArgs where
  category : Option Str
  item : Option Str
  quantity : Option Int
  location : Option Str
  status : Option Str
  sentiment : Option Str
deriving DecidableEq

/-- A spreadsheet cell: the row mixes strings and the integer quantity. -/
inductive Cell where
  | strc (s : Str)
  | intc (n : Int)
deriving DecidableEq

/-- The `row_data` list (main.py lines 164-174). -/
def rowOf (user_name user_text current_time : Str) (args : CallArgs) : List Cell :=
  [Cell.strc user_name,
   Cell.strc (args.category.getD (str "N/A")),
   Cell.strc (args.item.getD (str "Unknown")),
   Cell.intc (args.quantity.getD 0),
   Cell.strc (args.location.getD (str "N/A")),
   Cell.strc (args.status.getD (str "Info")),
   Cell.strc (args.sentiment.getD (str "Neutral")),
   Cell.strc user_text,
   Cell.strc current_time]

/-- Python rendering of `args.get(k)` for a string field inside an f-string:
an absent key renders as the literal text `None`. -/
def pyOptStr (o : Option Str) : Str :=
  match o with
  | some s => s
  | none => str "None"

/-- Python rendering of `args.get(k)` for the integer field inside an f-string. -/
def pyOptInt (o : Option Int) : Str :=
  match o with
  | some n => (toString n).data
  | none => str "None"

/-- The confirmation message (main.py lines 177-180): status uses the defaulted
`status_text`, item and quantity are rendered from the raw argument mapping. -/
def confirmation (status_text : Str) (args : CallArgs) : Str :=
  confHead ++ status_text ++ confItemSep ++ pyOptStr args.item
    ++ confQtySep ++ pyOptInt args.quantity

/-! The per-message handler (main.py lines 133-215) as a trace of observable
effects.  The environment supplies the model response for the composed prompt
and the outcome (normal return or raised exception, with the exception text)
of the external append and send calls. -/

inductive ModelResponse where
  | call (name : Str) (args : CallArgs)
  | text (t : Str)
deriving DecidableEq

structure IncomingMsg where
  user_text : Str
  user_name : Str
  reply_text : Option Str
  current_time : Str

structure Env where
  modelResp : Str → Except Str ModelResponse
  appendResult : Except Str Unit
  sendResult : Str → Except Str Unit

/-- Externally observable effects, in program order.  A `send` with
`delivered = false` is an attempt the transport rejected (the API call
raised); the raised exception is then caught by the handler and logged. -/
inductive Effect where
  | appendRow (row : List Cell)
  | send (text : Str) (parse_mode : Str) (is_reply : Bool) (delivered : Bool)
  | consoleLog (msg : Str)
deriving DecidableEq

/-- The handler `handle_message`.  Every branch of the Python function is
represented: model-call failure is caught by the `except` block and printed;
a structured call with the extraction name appends the row then sends the
confirmation as a threaded Markdown reply; a structured call with any other
name does nothing; free text is annotated and sent as a Markdown message;
a raised append or send is caught by the same `except` block and printed. -/
def handle_message (msg : IncomingMsg) (env : Env) : List Effect :=
  let prompt_input := composePrompt msg.user_text msg.reply_text
  match env.modelResp prompt_input with
  | .error e => [Effect.consoleLog (errHead ++ e)]
  | .ok (.call name args) =>
    if name = extractName then
      let status_text := args.status.getD (str "Info")
      let row_data := rowOf msg.user_name msg.user_text msg.current_time args
      match env.appendResult with
      | .error e => [Effect.consoleLog (errHead ++ e)]
      | .ok _ =>
        let conf := confirmation status_text args
        match env.sendResult conf with
        | .ok _ => [Effect.appendRow row_data, Effect.send conf mdMode true true]
        | .error e =>
          [Effect.appendRow row_data, Effect.send conf mdMode true false,
           Effect.consoleLog (errHead ++ e)]
    else []
  | .ok (.text t) =>
    let ft := finalText t
    match env.sendResult ft with
    | .ok _ => [Effect.send ft mdMode false true]
    | .error e => [Effect.send ft mdMode false false, Effect.consoleLog (errHead ++ e)]

/-- Texts of all send attempts in a trace, in order. -/
def sendTexts (effs : List Effect) : List Str :=
  effs.filterMap fun e =>
    match e with
    | .send t _ _ _ => some t
    | _ => none

/-! Concrete messages, environments and texts used to instantiate theorems. -/

def exMsg : IncomingMsg := ⟨str "hello", str "Alice", none, str "2026-01-01 10:00:00"⟩

/-- Environment: free-text model response, all external calls succeed. -/
def envText (t : Str) : Env :=
  ⟨fun _ => Except.ok (ModelResponse.text t), Except.ok (), fun _ => Except.ok ()⟩

/-- Environment: free-text model response, every transport send raises. -/
def envTextSendFail (t er : Str) : Env :=
  ⟨fun _ => Except.ok (ModelResponse.text t), Except.ok (), fun _ => Except.error er⟩

/-- Environment: structured-call model response, all external calls succeed. -/
def envCall (name : Str) (args : CallArgs) : Env :=
  ⟨fun _ => Except.ok (ModelResponse.call name args), Except.ok (), fun _ => Except.ok ()⟩

/-- Environment: structured-call model response, append succeeds, send raises. -/
def envCallSendFail (name : Str) (args : CallArgs) (er : Str) : Env :=
  ⟨fun _ => Except.ok (ModelResponse.call name args), Except.ok (), fun _ => Except.error er⟩

def argsNone : CallArgs := ⟨none, none, none, none, none, none⟩

def argsFull : CallArgs :=
  ⟨some (str "Material"), some (str "relays"), some 5, some (str "Station X"),
   some (str "Issued"), some (str "Positive")⟩

/-- A free-text response in which removing the DOUBT SOLVER marker recreates an
occurrence of that marker, and which already contains the literal link line. -/
def badText : Str := str "[SOURCE: DOUBT[SOURCE: DOUBT SOLVER] SOLVER] 🚦 [DOUBT SOLVER](https://notebooklm.google.com/notebook/7dddc77d-86e6-4e76-9dce-bf30b93688bf)"

def exText1 : Str := str "Answer. [SOURCE: OEM] more [SOURCE: OEM]"

def exText2 : Str := str "x [SOURCE: RULES] y [SOURCE: OEM]"

def exText4 : Str := str "See [SOURCE: OEM_MANUAL] for details"

/-! General lemmas about occurrence counting. -/

lemma isPrefixOf_eq_true_iff {a b : Str} : a.isPrefixOf b = true ↔ a <+: b :=
 List.isPrefixOf_iff_prefix

lemma isPrefixOf_false_cons {pat : Str} {c : Char} {y : Str}
    (hc : c ∉ pat) (hp : pat ≠ []) : pat.isPrefixOf (c :: y) = false := by
  cases pat with
  | nil => exact absurd rfl hp
  | cons p ps =>
    rw [Bool.eq_false_iff]
    intro h
    rw [isPrefixOf_eq_true_iff, List.cons_prefix_cons] at h
    exact hc (h.1 ▸ List.mem_cons_self p ps)

lemma countOccs_nil {pat : Str} (hp : pat ≠ []) : countOccs pat [] = 0 := by
  unfold countOccs
  rw [if_neg]
  rw [isPrefixOf_eq_true_iff]
  intro h
  exact hp (List.prefix_nil.mp h)

lemma countOccs_cons_of {pat : Str} {c : Char} (y : Str)
    (hc : c ∉ pat) (hp : pat ≠ []) : countOccs pat (c :: y) = countOccs pat y := by
  show (if pat.isPrefixOf (c :: y) then 1 else 0) + countOccs pat y = countOccs pat y
  rw [isPrefixOf_false_cons hc hp]
  simp

lemma prefix_append_cons {pat : Str} {c : Char} (x y : Str) (hc : c ∉ pat) :
    pat <+: (x ++ c :: y) ↔ pat <+: x := by
  induction pat generalizing x with
  | nil => simp
  | cons p ps ih =>
    cases x with
    | nil =>
      simp only [List.nil_append, List.cons_prefix_cons, List.prefix_nil]
      constructor
      · rintro ⟨rfl, -⟩
        exact absurd (List.mem_cons_self p ps) hc
      · intro h
        exact absurd h (List.cons_ne_nil p ps)
    | cons a x' =>
      simp only [List.cons_append, List.cons_prefix_cons]
      have hc' : c ∉ ps := fun h => hc (List.mem_cons_of_mem p h)
      rw [ih x' hc']

lemma isPrefixOf_append_cons {pat : Str} {c : Char} (x y : Str) (hc : c ∉ pat) :
    pat.isPrefixOf (x ++ c :: y) = pat.isPrefixOf x := by
  by_cases hb : pat <+: x
  · have h1 : pat.isPrefixOf x = true := isPrefixOf_eq_true_iff.mpr hb
    have h2 : pat.isPrefixOf (x ++ c :: y) = true :=
      isPrefixOf_eq_true_iff.mpr ((prefix_append_cons x y hc).mpr hb)
    rw [h1, h2]
  · have h1 : pat.isPrefixOf x = false := by
      rw [Bool.eq_false_iff]
      intro h
      exact hb (isPrefixOf_eq_true_iff.mp h)
    have h2 : pat.isPrefixOf (x ++ c :: y) = false := by
      rw [Bool.eq_false_iff]
      intro h
      exact hb ((prefix_append_cons x y hc).mp (isPrefixOf_eq_true_iff.mp h))
    rw [h1, h2]

lemma countOccs_append_cons {pat : Str} {c : Char} (x y : Str)
    (hc : c ∉ pat) (hp : pat ≠ []) :
    countOccs pat (x ++ c :: y) = countOccs pat x + countOccs pat y := by
  induction x with
  | nil =>
    rw [List.nil_append, countOccs_cons_of y hc hp, countOccs_nil hp]
    omega
  | cons a x' ih =>
    have h1 : countOccs pat (a :: (x' ++ c :: y))
        = (if pat.isPrefixOf (a :: (x' ++ c :: y)) then 1 else 0)
          + countOccs pat (x' ++ c :: y) := rfl
    have h2 : countOccs pat (a :: x')
        = (if pat.isPrefixOf (a :: x') then 1 else 0) + countOccs pat x' := rfl
    have h3 : ((a :: x') ++ c :: y) = a :: (x' ++ c :: y) := rfl
    rw [List.cons_append, h1, h2, ih]
    have h4 : pat.isPrefixOf (a :: (x' ++ c :: y)) = pat.isPrefixOf (a :: x') := by
      rw [← h3, isPrefixOf_append_cons (a :: x') y hc]
    rw [h4]
    omega

lemma one_le_countOccs_empty (s : Str) : 1 ≤ countOccs ([] : Str) s := by
  cases s with
  | nil => simp [countOccs]
  | cons c rest =>
    show 1 ≤ (if ([] : Str).isPrefixOf (c :: rest) then 1 else 0) + countOccs [] rest
    simp [List.isPrefixOf]

lemma countOccs_sandwich (pat x y : Str) : 1 ≤ countOccs pat (x ++ (pat ++ y)) := by
  induction x with
  | nil =>
    rw [List.nil_append]
    cases pat with
    | nil => exact one_le_countOccs_empty _
    | cons p ps =>
      show 1 ≤ (if (p :: ps).isPrefixOf (p :: (ps ++ y)) then 1 else 0)
        + countOccs (p :: ps) (ps ++ y)
      rw [if_pos]
      · omega
      · exact isPrefixOf_eq_true_iff.mpr (List.prefix_append (p :: ps) y)
  | cons a x' ih =>
    show 1 ≤ (if pat.isPrefixOf (a :: (x' ++ (pat ++ y))) then 1 else 0)
      + countOccs pat (x' ++ (pat ++ y))
    omega

lemma countOccs_joinWith {pat : Str} {c : Char} (L : List Str)
    (hc : c ∉ pat) (hp : pat ≠ []) :
    countOccs pat (joinWith [c] L) = (L.map (countOccs pat)).sum := by
  induction L with
  | nil => simp [joinWith, countOccs_nil hp]
  | cons x rest ih =>
    cases rest with
    | nil => simp [joinWith]
    | cons y rest' =>
      show countOccs pat (x ++ [c] ++ joinWith [c] (y :: rest')) = _
      rw [List.append_assoc]
      have : ([c] : Str) ++ joinWith [c] (y :: rest') = c :: joinWith [c] (y :: rest') := rfl
      rw [this, countOccs_append_cons x _ hc hp, ih]
      simp

lemma sum_map_eq_count {L : List Str} {target : Str} {f : Str → Nat}
    (h : ∀ l ∈ L, f l = if l = target then 1 else 0) :
    (L.map f).sum = L.count target := by
  induction L with
  | nil => simp
  | cons a rest ih =>
    have ha := h a (List.mem_cons_self a rest)
    have hrest : ∀ l ∈ rest, f l = if l = target then 1 else 0 :=
      fun l hl => h l (List.mem_cons_of_mem a hl)
    rw [List.map_cons, List.sum_cons, ih hrest, List.count_cons, ha]
    by_cases hat : a = target
    · simp only [hat, if_pos rfl, beq_self_eq_true, if_true]
      omega
    · rw [if_neg hat, if_neg]
      · omega
      · simp only [beq_iff_eq]
        exact hat

/-! Structure of the annotation pass. -/

lemma step_snd (tag link : Str) (st : Str × List Str) :
    (step tag link st).2 = st.2 ++ (if pyContains tag st.1 then [link] else []) := by
  unfold step
  split
  · simp
  · simp

lemma annotate_snd (t : Str) :
    (annotate t).2 =
      (if pyContains tagD (checkText t 0) then [linkD] else [])
      ++ ((if pyContains tagO (checkText t 1) then [linkO] else [])
      ++ ((if pyContains tagA (checkText t 2) then [linkA] else [])
      ++ (if pyContains tagR (checkText t 3) then [linkR] else []))) := by
  have h0 : (st0 t).2 = [] := rfl
  have e1 : (st1 t).2 = (st0 t).2 ++ (if pyContains tagD (st0 t).1 then [linkD] else []) :=
    step_snd tagD linkD (st0 t)
  have e2 : (st2 t).2 = (st1 t).2 ++ (if pyContains tagO (st1 t).1 then [linkO] else []) :=
    step_snd tagO linkO (st1 t)
  have e3 : (st3 t).2 = (st2 t).2 ++ (if pyContains tagA (st2 t).1 then [linkA] else []) :=
    step_snd tagA linkA (st2 t)
  have e4 : (annotate t).2 = (st3 t).2 ++ (if pyContains tagR (st3 t).1 then [linkR] else []) :=
    step_snd tagR linkR (st3 t)
  rw [e4, e3, e2, e1, h0]
  show _ = _ ++ (_ ++ (_ ++ _))
  simp only [checkText, List.nil_append, List.append_assoc]

lemma links_mem_fullLinks (t : Str) : ∀ l ∈ (annotate t).2, l ∈ fullLinks := by
  rw [annotate_snd]
  intro l hl
  simp only [List.mem_append] at hl
  rcases hl with h | h | h | h <;>
    · split at h
      · simp only [List.mem_singleton] at h
        subst h
        simp [fullLinks]
      · simp at h

lemma linkOf_mem {t : Str} {i : Fin 4}
    (h : pyContains (tagOf i) (checkText t i) = true) : linkOf i ∈ (annotate t).2 := by
  rw [annotate_snd]
  fin_cases i
  · have h' : pyContains tagD (checkText t 0) = true := h
    rw [h']
    simp [linkOf]
  · have h' : pyContains tagO (checkText t 1) = true := h
    rw [h']
    simp [linkOf]
  · have h' : pyContains tagA (checkText t 2) = true := h
    rw [h']
    simp [linkOf]
  · have h' : pyContains tagR (checkText t 3) = true := h
    rw [h']
    simp [linkOf]

/-- Decomposition of the occurrence count of a newline-free pattern in the
delivered Scenario B text, when at least one link was queued. -/
lemma countOccs_finalText {pat : Str} (t : Str)
    (hp : pat ≠ []) (hn : ('\n' : Char) ∉ pat) (hl : (annotate t).2 ≠ []) :
    countOccs pat (finalText t)
      = countOccs pat (annotate t).1
        + ((annotate t).2.map (countOccs pat)).sum
        + countOccs pat tipBody := by
  have hft : finalText t
      = (annotate t).1 ++ sepNN ++ joinWith nlSep (annotate t).2 ++ tipLine := by
    unfold finalText
    rw [if_pos hl]
  have hsep : ((annotate t).1 ++ sepNN ++ joinWith nlSep (annotate t).2 ++ tipLine)
      = (annotate t).1
        ++ '\n' :: ('\n' :: (joinWith nlSep (annotate t).2 ++ '\n' :: tipBody)) := by
    show ((annotate t).1 ++ ('\n' :: '\n' :: []) ++ joinWith nlSep (annotate t).2
      ++ ('\n' :: tipBody)) = _
    simp [List.append_assoc]
  rw [hft, hsep]
  rw [countOccs_append_cons _ _ hn hp]
  rw [countOccs_cons_of _ hn hp]
  rw [countOccs_append_cons _ _ hn hp]
  have hjoin : countOccs pat (joinWith nlSep (annotate t).2)
      = ((annotate t).2.map (countOccs pat)).sum := by
    have : nlSep = ['\n'] := rfl
    rw [this]
    exact countOccs_joinWith _ hn hp
  rw [hjoin]
  omega

lemma natSum_eq_zero {L : List Nat} (h : ∀ n ∈ L, n = 0) : L.sum = 0 := by
  induction L with
  | nil => rfl
  | cons a rest ih =>
    rw [List.sum_cons, h a (List.mem_cons_self a rest),
      ih fun n hn => h n (List.mem_cons_of_mem a hn)]

/-- The queued link lines always form a sublist (in order) of the fixed
enumeration `[linkD, linkO, linkA, linkR]`. -/
lemma links_sublist (t : Str) : List.Sublist (annotate t).2 fullLinks := by
  rw [annotate_snd]
  cases h0 : pyContains tagD (checkText t 0) <;>
  cases h1 : pyContains tagO (checkText t 1) <;>
  cases h2 : pyContains tagA (checkText t 2) <;>
  cases h3 : pyContains tagR (checkText t 3) <;>
    simp only [h0, h1, h2, h3, if_true, if_false, List.nil_append, List.append_nil,
      Bool.false_eq_true] <;>
    decide

/-! Claim theorems. -/

/-- Claim C3, amended.  For every free-text response in which a recognized
source-tag marker is present at the moment the handler checks for it
(markers are checked and stripped sequentially in the fixed order), provided
the single-pass removal does not itself recreate an occurrence of that marker
in the stripped text and the stripped text does not already contain the
corresponding link line, the delivered text contains no occurrence of that
marker and the corresponding link line appears exactly once — even when the
same tag occurs multiple times in the source text. -/
theorem c3_marker_stripped_link_once (t : Str) (i : Fin 4)
    (hcheck : pyContains (tagOf i) (checkText t i) = true)
    (htag : countOccs (tagOf i) (annotate t).1 = 0)
    (hlink : countOccs (linkOf i) (annotate t).1 = 0) :
    countOccs (tagOf i) (finalText t) = 0 ∧ countOccs (linkOf i) (finalText t) = 1 := by
  have hmem : linkOf i ∈ (annotate t).2 := linkOf_mem hcheck
  have hne : (annotate t).2 ≠ [] := by
    intro h
    rw [h] at hmem
    exact absurd hmem (List.not_mem_nil _)
  have htag_ne : tagOf i ≠ [] := by fin_cases i <;> decide
  have htag_nl : ('\n' : Char) ∉ tagOf i := by fin_cases i <;> decide
  have hlink_ne : linkOf i ≠ [] := by fin_cases i <;> decide
  have hlink_nl : ('\n' : Char) ∉ linkOf i := by fin_cases i <;> decide
  constructor
  · rw [countOccs_finalText t htag_ne htag_nl hne, htag]
    have hsum : ((annotate t).2.map (countOccs (tagOf i))).sum = 0 := by
      apply natSum_eq_zero
      intro n hn
      rw [List.mem_map] at hn
      obtain ⟨l, hl, rfl⟩ := hn
      have hfull := links_mem_fullLinks t l hl
      simp only [fullLinks, List.mem_cons, List.not_mem_nil, or_false] at hfull
      rcases hfull with rfl | rfl | rfl | rfl <;> fin_cases i <;> decide
    have htip : countOccs (tagOf i) tipBody = 0 := by fin_cases i <;> decide
    rw [hsum, htip]
  · rw [countOccs_finalText t hlink_ne hlink_nl hne, hlink]
    have hsum : ((annotate t).2.map (countOccs (linkOf i))).sum
        = (annotate t).2.count (linkOf i) := by
      apply sum_map_eq_count
      intro l hl
      have hfull := links_mem_fullLinks t l hl
      simp only [fullLinks, List.mem_cons, List.not_mem_nil, or_false] at hfull
      rcases hfull with rfl | rfl | rfl | rfl <;> fin_cases i <;> decide
    have hcount : (annotate t).2.count (linkOf i) = 1 := by
      have hle : (annotate t).2.count (linkOf i) ≤ fullLinks.count (linkOf i) :=
        (links_sublist t).count_le (linkOf i)
      have hfc : fullLinks.count (linkOf i) = 1 := by fin_cases i <;> decide
      have hge : 1 ≤ (annotate t).2.count (linkOf i) := List.one_le_count_iff.mpr hmem
      omega
    have htip : countOccs (linkOf i) tipBody = 0 := by fin_cases i <;> decide
    rw [hsum, hcount, htip]

/-- Witness for C3 (amended): a response carrying the OEM tag twice.  All
hypotheses hold, the delivered text contains no marker occurrence, and the
OEM link line appears exactly once. -/
theorem c3_marker_stripped_link_once_witness :
    pyContains (tagOf 1) (checkText exText1 1) = true
    ∧ countOccs (tagOf 1) (annotate exText1).1 = 0
    ∧ countOccs (linkOf 1) (annotate exText1).1 = 0
    ∧ (countOccs (tagOf 1) (finalText exText1) = 0
       ∧ countOccs (linkOf 1) (finalText exText1) = 1) :=
  ⟨by decide, by decide, by decide,
   c3_marker_stripped_link_once exText1 1 (by decide) (by decide) (by decide)⟩

set_option maxRecDepth 10000 in
/-- Counterexample to C3 as stated: `badText` contains the DOUBT SOLVER marker,
yet the delivered text still contains that marker (the single-pass removal
recreated an occurrence), and the DOUBT SOLVER link line appears twice in the
delivered text (once pre-existing in the response, once appended). -/
theorem c3_counterexample :
    1 ≤ countOccs tagD badText
    ∧ sendTexts (handle_message exMsg (envText badText)) = [finalText badText]
    ∧ 1 ≤ countOccs tagD (finalText badText)
    ∧ countOccs linkD (finalText badText) = 2 :=
  ⟨by decide, by decide, by decide, by decide⟩

/-- Claim C6: the queued link lines always appear in the fixed checking order
DOUBT SOLVER, OEM, ASSET_DATA, RULES — the queue is a sublist of that fixed
enumeration, independent of the order the tags appear in the source text —
and when any link was queued the delivered text is the stripped text followed
by the queued link lines joined in queue order, then the tip line. -/
theorem c6_links_in_fixed_order (t : Str) :
    List.Sublist (annotate t).2 fullLinks
    ∧ ((annotate t).2 ≠ [] →
        finalText t = (annotate t).1 ++ sepNN ++ joinWith nlSep (annotate t).2 ++ tipLine) := by
  refine ⟨links_sublist t, fun h => ?_⟩
  unfold finalText
  rw [if_pos h]

/-- Witness for C6: the RULES tag precedes the OEM tag in the source text, yet
the queue lists the OEM link first, in checking order. -/
theorem c6_links_in_fixed_order_witness :
    (annotate exText2).2 = [linkO, linkR]
    ∧ List.Sublist (annotate exText2).2 fullLinks
    ∧ finalText exText2
        = (annotate exText2).1 ++ sepNN ++ joinWith nlSep (annotate exText2).2 ++ tipLine :=
  ⟨by decide, (c6_links_in_fixed_order exText2).1,
   (c6_links_in_fixed_order exText2).2 (by decide)⟩

/-- Claim C4: a free-text response containing none of the four recognized
markers is delivered unchanged — no link block, no tip line — and unrecognized
bracketed tags in it are left untouched (the text is the identical string). -/
theorem c4_no_marker_text_unchanged (msg : IncomingMsg) (env : Env) (t : Str)
    (h0 : pyContains tagD t = false) (h1 : pyContains tagO t = false)
    (h2 : pyContains tagA t = false) (h3 : pyContains tagR t = false) :
    finalText t = t
    ∧ (env.modelResp (composePrompt msg.user_text msg.reply_text)
          = .ok (.text t) →
        sendTexts (handle_message msg env) = [t]) := by
  have e1 : st1 t = (t, []) := by
    unfold st1 st0 step
    simp [h0]
  have e2 : st2 t = (t, []) := by
    unfold st2 step
    rw [e1]
    simp [h1]
  have e3 : st3 t = (t, []) := by
    unfold st3 step
    rw [e2]
    simp [h2]
  have e4 : annotate t = (t, []) := by
    unfold annotate step
    rw [e3]
    simp [h3]
  have hfin : finalText t = t := by
    unfold finalText
    rw [e4]
    simp
  refine ⟨hfin, fun hresp => ?_⟩
  cases hs : env.sendResult (finalText t) with
  | error e =>
    rw [hfin] at hs
    simp [handle_message, hresp, hs, sendTexts, hfin]
  | ok v =>
    rw [hfin] at hs
    simp [handle_message, hresp, hs, sendTexts, hfin]

/-- Witness for C4: a response whose only bracketed tag is the unrecognized
`[SOURCE: OEM_MANUAL]`; it is delivered verbatim. -/
theorem c4_no_marker_text_unchanged_witness :
    finalText exText4 = exText4
    ∧ sendTexts (handle_message exMsg (envText exText4)) = [exText4] := by
  have h := c4_no_marker_text_unchanged exMsg (envText exText4) exText4
    (by decide) (by decide) (by decide) (by decide)
  exact ⟨h.1, h.2 rfl⟩

/-- Claim C5: with no reply-to text the composed prompt is the raw message
text unchanged; with a (non-empty, i.e. truthy) reply-to text present the
composed prompt contains both the replied-to text and the current message
text and is non-empty. -/
theorem c5_prompt_composition (user : Str) (reply : Option Str) :
    (reply = none → composePrompt user reply = user)
    ∧ (∀ orig, reply = some orig → orig ≠ [] →
        1 ≤ countOccs orig (composePrompt user reply)
        ∧ 1 ≤ countOccs user (composePrompt user reply)
        ∧ composePrompt user reply ≠ []) := by
  constructor
  · rintro rfl
    rfl
  · rintro orig rfl hne
    have hc : composePrompt user (some orig) = ctxA ++ orig ++ ctxB ++ user ++ ctxC := by
      show (if orig ≠ [] then ctxA ++ orig ++ ctxB ++ user ++ ctxC else user) = _
      rw [if_pos hne]
    refine ⟨?_, ?_, ?_⟩
    · rw [hc]
      have ha : ctxA ++ orig ++ ctxB ++ user ++ ctxC
          = ctxA ++ (orig ++ (ctxB ++ (user ++ ctxC))) := by
        simp [List.append_assoc]
      rw [ha]
      exact countOccs_sandwich orig ctxA (ctxB ++ (user ++ ctxC))
    · rw [hc]
      have ha : ctxA ++ orig ++ ctxB ++ user ++ ctxC
          = (ctxA ++ orig ++ ctxB) ++ (user ++ ctxC) := by
        simp [List.append_assoc]
      rw [ha]
      exact countOccs_sandwich user (ctxA ++ orig ++ ctxB) ctxC
    · rw [hc]
      intro h
      rw [List.append_eq_nil] at h
      exact absurd h.2 (by decide)

/-- Witness for C5: a concrete reply with both texts recoverable from the
composed prompt. -/
theorem c5_prompt_composition_witness :
    1 ≤ countOccs (str "need 2 relays at LC 45")
        (composePrompt (str "Issued today") (some (str "need 2 relays at LC 45")))
    ∧ 1 ≤ countOccs (str "Issued today")
        (composePrompt (str "Issued today") (some (str "need 2 relays at LC 45")))
    ∧ composePrompt (str "Issued today") (some (str "need 2 relays at LC 45")) ≠ [] :=
  (c5_prompt_composition (str "Issued today") (some (str "need 2 relays at LC 45"))).2
    (str "need 2 relays at LC 45") rfl (by decide)

/-- Claim C1, amended.  When the rich-formatted send of a free-text delivery
raises, the handler attempts no plain-text fallback send at all: the exception
is caught, the error is console-logged, and the message is not retried.  (The
trace holds exactly one send attempt — the rejected rich-formatted one — and
ends in the console log.) -/
theorem c1_no_fallback_on_send_error (msg : IncomingMsg) (env : Env) (t er : Str)
    (hresp : env.modelResp (composePrompt msg.user_text msg.reply_text)
      = .ok (.text t))
    (hsend : env.sendResult (finalText t) = .error er) :
    handle_message msg env
      = [Effect.send (finalText t) mdMode false false,
         Effect.consoleLog (errHead ++ er)] := by
  simp [handle_message, hresp, hsend]

/-- Witness for C1 (amended): a rejected rich-formatted send is followed only
by the console log. -/
theorem c1_no_fallback_on_send_error_witness :
    handle_message exMsg (envTextSendFail (str "Hello [world]") (str "can not parse entities"))
      = [Effect.send (finalText (str "Hello [world]")) mdMode false false,
         Effect.consoleLog (errHead ++ str "can not parse entities")] :=
  c1_no_fallback_on_send_error exMsg
    (envTextSendFail (str "Hello [world]") (str "can not parse entities"))
    (str "Hello [world]") (str "can not parse entities") rfl rfl

/-- Counterexample to C1 as stated: on a send that raises, the trace contains
exactly one send attempt (the rejected rich-formatted one, whose text still
contains brackets) and no plain-text fallback attempt; the handler ends in a
console log instead of the claimed single fallback send. -/
theorem c1_counterexample :
    (envTextSendFail (str "Hello [world]") (str "can not parse entities")).sendResult
        (finalText (str "Hello [world]")) = .error (str "can not parse entities")
    ∧ sendTexts (handle_message exMsg
        (envTextSendFail (str "Hello [world]") (str "can not parse entities")))
      = [finalText (str "Hello [world]")]
    ∧ pyContains (str "[") (finalText (str "Hello [world]")) = true
    ∧ (handle_message exMsg
        (envTextSendFail (str "Hello [world]") (str "can not parse entities"))).getLast?
      = some (Effect.consoleLog (errHead ++ str "can not parse entities")) :=
  ⟨rfl, by decide, by decide, by decide⟩

/-- Claim C2: for a structured call naming the extraction action (with the
append succeeding), the appended row is the first effect, has exactly 9 cells
in the fixed order [sender name, category, item, quantity, location, status,
sentiment, raw text, timestamp], and every absent argument is replaced by its
documented placeholder (N/A, Unknown, 0, N/A, Info, Neutral). -/
theorem c2_row_nine_fields (msg : IncomingMsg) (env : Env) (args : CallArgs)
    (hresp : env.modelResp (composePrompt msg.user_text msg.reply_text)
      = .ok (.call extractName args))
    (happ : env.appendResult = .ok ()) :
    ∀ row, row = rowOf msg.user_name msg.user_text msg.current_time args →
      (handle_message msg env).head? = some (Effect.appendRow row)
      ∧ row.length = 9
      ∧ row[0]? = some (Cell.strc msg.user_name)
      ∧ row[1]? = some (Cell.strc (args.category.getD (str "N/A")))
      ∧ row[2]? = some (Cell.strc (args.item.getD (str "Unknown")))
      ∧ row[3]? = some (Cell.intc (args.quantity.getD 0))
      ∧ row[4]? = some (Cell.strc (args.location.getD (str "N/A")))
      ∧ row[5]? = some (Cell.strc (args.status.getD (str "Info")))
      ∧ row[6]? = some (Cell.strc (args.sentiment.getD (str "Neutral")))
      ∧ row[7]? = some (Cell.strc msg.user_text)
      ∧ row[8]? = some (Cell.strc msg.current_time) := by
  rintro row rfl
  refine ⟨?_, by simp [rowOf], rfl, rfl, rfl, rfl, rfl, rfl, rfl, rfl, rfl⟩
  cases hs : env.sendResult (confirmation (args.status.getD (str "Info")) args) with
  | error e => simp [handle_message, hresp, happ, hs]
  | ok v => simp [handle_message, hresp, happ, hs]

/-- Witness for C2: a call with every argument absent; all placeholders are
substituted and the 9-cell row is the first effect. -/
theorem c2_row_nine_fields_witness :
    (handle_message exMsg (envCall extractName argsNone)).head?
      = some (Effect.appendRow
          (rowOf exMsg.user_name exMsg.user_text exMsg.current_time argsNone))
    ∧ (rowOf exMsg.user_name exMsg.user_text exMsg.current_time argsNone).length = 9
    ∧ (rowOf exMsg.user_name exMsg.user_text exMsg.current_time argsNone)[0]?
        = some (Cell.strc exMsg.user_name)
    ∧ (rowOf exMsg.user_name exMsg.user_text exMsg.current_time argsNone)[1]?
        = some (Cell.strc (str "N/A"))
    ∧ (rowOf exMsg.user_name exMsg.user_text exMsg.current_time argsNone)[2]?
        = some (Cell.strc (str "Unknown"))
    ∧ (rowOf exMsg.user_name exMsg.user_text exMsg.current_time argsNone)[3]?
        = some (Cell.intc 0)
    ∧ (rowOf exMsg.user_name exMsg.user_text exMsg.current_time argsNone)[4]?
        = some (Cell.strc (str "N/A"))
    ∧ (rowOf exMsg.user_name exMsg.user_text exMsg.current_time argsNone)[5]?
        = some (Cell.strc (str "Info"))
    ∧ (rowOf exMsg.user_name exMsg.user_text exMsg.current_time argsNone)[6]?
        = some (Cell.strc (str "Neutral"))
    ∧ (rowOf exMsg.user_name exMsg.user_text exMsg.current_time argsNone)[7]?
        = some (Cell.strc exMsg.user_text)
    ∧ (rowOf exMsg.user_name exMsg.user_text exMsg.current_time argsNone)[8]?
        = some (Cell.strc exMsg.current_time) :=
  c2_row_nine_fields exMsg (envCall extractName argsNone) argsNone rfl rfl
    (rowOf exMsg.user_name exMsg.user_text exMsg.current_time argsNone) rfl

/-- Claim C7, amended.  Every message path terminates and ends in exactly one
of: a delivered reply (last effect is a successful send), a console-logged
swallowed failure (last effect is a console log), or — the one path the
original claim misses — a structured call whose action name is not the
extraction action, which produces no effect at all (no reply, no log).
A delivered-reply ending and a console-log ending never co-occur. -/
theorem c7_terminal_outcomes (msg : IncomingMsg) (env : Env) :
    ((∃ t pm r, (handle_message msg env).getLast? = some (Effect.send t pm r true))
      ∨ (∃ m, (handle_message msg env).getLast? = some (Effect.consoleLog m))
      ∨ (handle_message msg env = []
          ∧ ∃ name args,
              env.modelResp (composePrompt msg.user_text msg.reply_text)
                = .ok (.call name args) ∧ name ≠ extractName))
    ∧ ¬((∃ t pm r, (handle_message msg env).getLast? = some (Effect.send t pm r true))
        ∧ (∃ m, (handle_message msg env).getLast? = some (Effect.consoleLog m))) := by
  constructor
  · cases hresp : env.modelResp (composePrompt msg.user_text msg.reply_text) with
    | error e =>
      right; left
      exact ⟨errHead ++ e, by simp [handle_message, hresp]⟩
    | ok resp =>
      cases resp with
      | call name args =>
        by_cases hname : name = extractName
        · subst hname
          cases happ : env.appendResult with
          | error e =>
            right; left
            exact ⟨errHead ++ e, by simp [handle_message, hresp, happ]⟩
          | ok u =>
            cases hsend : env.sendResult (confirmation (args.status.getD (str "Info")) args) with
            | error e =>
              right; left
              exact ⟨errHead ++ e, by simp [handle_message, hresp, happ, hsend]⟩
            | ok v =>
              left
              exact ⟨confirmation (args.status.getD (str "Info")) args, mdMode, true,
                by simp [handle_message, hresp, happ, hsend]⟩
        · right; right
          exact ⟨by simp [handle_message, hresp, hname], name, args, rfl, hname⟩
      | text t =>
        cases hsend : env.sendResult (finalText t) with
        | error e =>
          right; left
          exact ⟨errHead ++ e, by simp [handle_message, hresp, hsend]⟩
        | ok v =>
          left
          exact ⟨finalText t, mdMode, false, by simp [handle_message, hresp, hsend]⟩
  · rintro ⟨⟨t, pm, r, h1⟩, m, h2⟩
    rw [h1] at h2
    exact absurd (Option.some.inj h2) (by simp)

/-- Witness for C7 (amended): a successful free-text delivery ends in exactly
one outcome. -/
theorem c7_terminal_outcomes_witness :
    ((∃ t pm r, (handle_message exMsg (envText exText4)).getLast?
        = some (Effect.send t pm r true))
      ∨ (∃ m, (handle_message exMsg (envText exText4)).getLast?
          = some (Effect.consoleLog m))
      ∨ (handle_message exMsg (envText exText4) = []
          ∧ ∃ name args,
              (envText exText4).modelResp
                  (composePrompt exMsg.user_text exMsg.reply_text)
                = .ok (.call name args) ∧ name ≠ extractName))
    ∧ ¬((∃ t pm r, (handle_message exMsg (envText exText4)).getLast?
          = some (Effect.send t pm r true))
        ∧ (∃ m, (handle_message exMsg (envText exText4)).getLast?
            = some (Effect.consoleLog m))) :=
  c7_terminal_outcomes exMsg (envText exText4)

/-- Counterexample to C7 as stated: a structured call to an unrecognized
action name terminates with an empty effect trace — no reply is sent and no
failure is console-logged, so this path ends in neither of the two outcomes
the claim allows. -/
theorem c7_counterexample :
    handle_message exMsg (envCall (str "other_tool") argsNone) = []
    ∧ (handle_message exMsg (envCall (str "other_tool") argsNone)).getLast? = none :=
  ⟨by decide, by decide⟩

/-- Claim C8: in the LOG branch the row append precedes the confirmation send,
and the two are not atomic — when the append succeeds and the confirmation
send then raises, the trace is exactly [append, rejected send, console log]:
the appended row stays in the trace and no compensating effect follows. -/
theorem c8_append_before_confirmation_not_atomic
    (msg : IncomingMsg) (env : Env) (args : CallArgs) (er : Str)
    (hresp : env.modelResp (composePrompt msg.user_text msg.reply_text)
      = .ok (.call extractName args))
    (happ : env.appendResult = .ok ())
    (hsend : env.sendResult (confirmation (args.status.getD (str "Info")) args)
      = .error er) :
    handle_message msg env
      = [Effect.appendRow (rowOf msg.user_name msg.user_text msg.current_time args),
         Effect.send (confirmation (args.status.getD (str "Info")) args) mdMode true false,
         Effect.consoleLog (errHead ++ er)] := by
  simp [handle_message, hresp, happ, hsend]

/-- Witness for C8: append succeeds, confirmation send raises; the row effect
remains first in the trace. -/
theorem c8_append_before_confirmation_not_atomic_witness :
    handle_message exMsg (envCallSendFail extractName argsFull (str "Timed out"))
      = [Effect.appendRow (rowOf exMsg.user_name exMsg.user_text exMsg.current_time argsFull),
         Effect.send (confirmation (argsFull.status.getD (str "Info")) argsFull) mdMode true false,
         Effect.consoleLog (errHead ++ str "Timed out")] :=
  c8_append_before_confirmation_not_atomic exMsg
    (envCallSendFail extractName argsFull (str "Timed out")) argsFull
    (str "Timed out") rfl rfl rfl

/-- Claim C9: a structured call whose action name is not
`extract_transaction_data` produces no effect at all — no append, no send,
no console log. -/
theorem c9_unrecognized_call_no_effect (msg : IncomingMsg) (env : Env)
    (name : Str) (args : CallArgs)
    (hresp : env.modelResp (composePrompt msg.user_text msg.reply_text)
      = .ok (.call name args))
    (hname : name ≠ extractName) :
    handle_message msg env = [] := by
  simp [handle_message, hresp, hname]

/-- Witness for C9: a call to a different action name leaves an empty trace. -/
theorem c9_unrecognized_call_no_effect_witness :
    handle_message exMsg (envCall (str "do_something_else") argsNone) = [] :=
  c9_unrecognized_call_no_effect exMsg (envCall (str "do_something_else") argsNone)
    (str "do_something_else") argsNone rfl (by decide)

/-- Claim C10: the confirmation message renders item and quantity from the raw
argument mapping (an absent key shows as the literal text None), while the
appended row stores the placeholders Unknown and 0 for the same call. -/
theorem c10_confirmation_renders_raw_args (msg : IncomingMsg) (env : Env)
    (args : CallArgs)
    (hresp : env.modelResp (composePrompt msg.user_text msg.reply_text)
      = .ok (.call extractName args))
    (happ : env.appendResult = .ok ()) :
    sendTexts (handle_message msg env)
      = [confirmation (args.status.getD (str "Info")) args]
    ∧ (args.item = none →
        1 ≤ countOccs (str "Item: None")
            (confirmation (args.status.getD (str "Info")) args)
        ∧ (rowOf msg.user_name msg.user_text msg.current_time args)[2]?
            = some (Cell.strc (str "Unknown")))
    ∧ (args.quantity = none →
        1 ≤ countOccs (str "Qty: None")
            (confirmation (args.status.getD (str "Info")) args)
        ∧ (rowOf msg.user_name msg.user_text msg.current_time args)[3]?
            = some (Cell.intc 0)) := by
  refine ⟨?_, fun hi => ⟨?_, ?_⟩, fun hq => ⟨?_, ?_⟩⟩
  · cases hs : env.sendResult (confirmation (args.status.getD (str "Info")) args) with
    | error e => simp [handle_message, hresp, happ, hs, sendTexts]
    | ok v => simp [handle_message, hresp, happ, hs, sendTexts]
  · have hconf : confirmation (args.status.getD (str "Info")) args
        = (confHead ++ args.status.getD (str "Info") ++ str " | ")
          ++ (str "Item: None" ++ (confQtySep ++ pyOptInt args.quantity)) := by
      have hrw : pyOptStr args.item = str "None" := by
        rw [hi]
        rfl
      unfold confirmation
      rw [hrw]
      simp only [List.append_assoc]
      rfl
    rw [hconf]
    exact countOccs_sandwich (str "Item: None")
      (confHead ++ args.status.getD (str "Info") ++ str " | ")
      (confQtySep ++ pyOptInt args.quantity)
  · simp [rowOf, hi]
  · have hconf : confirmation (args.status.getD (str "Info")) args
        = (confHead ++ args.status.getD (str "Info") ++ confItemSep
            ++ pyOptStr args.item ++ str " | ")
          ++ (str "Qty: None" ++ []) := by
      have hrw : pyOptInt args.quantity = str "None" := by
        rw [hq]
        rfl
      unfold confirmation
      rw [hrw]
      simp only [List.append_nil, List.append_assoc]
      rfl
    rw [hconf]
    exact countOccs_sandwich (str "Qty: None")
      (confHead ++ args.status.getD (str "Info") ++ confItemSep
        ++ pyOptStr args.item ++ str " | ") []
  · simp [rowOf, hq]

/-- Witness for C10: with item and quantity absent, the confirmation shows
`Item: None` and `Qty: None` while the row stores Unknown and 0. -/
theorem c10_confirmation_renders_raw_args_witness :
    sendTexts (handle_message exMsg (envCall extractName argsNone))
      = [confirmation (argsNone.status.getD (str "Info")) argsNone]
    ∧ (1 ≤ countOccs (str "Item: None")
          (confirmation (argsNone.status.getD (str "Info")) argsNone)
        ∧ (rowOf exMsg.user_name exMsg.user_text exMsg.current_time argsNone)[2]?
            = some (Cell.strc (str "Unknown")))
    ∧ (1 ≤ countOccs (str "Qty: None")
          (confirmation (argsNone.status.getD (str "Info")) argsNone)
        ∧ (rowOf exMsg.user_name exMsg.user_text exMsg.current_time argsNone)[3]?
            = some (Cell.intc 0)) := by
  have h := c10_confirmation_renders_raw_args exMsg (envCall extractName argsNone)
    argsNone rfl rfl
  exact ⟨h.1, h.2.1 rfl, h.2.2 rfl⟩

end KursBot
